/-
Verification of the mcp-gateway downstream process manager and its
catalog/dispatch surface.

The Python sources are shallowly embedded:
  * Python strings are `List Char` (`pyStr` converts a Lean literal).
  * Python dicts are association lists with explicit replace/remove helpers.
  * `time.time()` values are passed explicitly as `Rat` timestamps.
  * Fallible Python code returns `Except` / `PyOutcome`.
  * pydantic `BaseModel` attribute assignment is modelled by
    `pydanticSetattrCheck`: assigning a field that the model does not
    declare raises `ValueError` (both pydantic v1 and v2 behave this way
    with the default configuration used in `types.py`).
-/

import Mathlib

namespace McpGateway

/-- A Python `str` is modelled as its list of characters. -/
abbrev PyStr := List Char

/-- Convert a Lean string literal to the embedded Python string type. -/
def pyStr (s : String) : PyStr := s.data

/-- Python `str.lower()` (ASCII case folding, which covers every string the
source manipulates). -/
def pyLower (s : PyStr) : PyStr := s.map Char.toLower

/-- Boolean prefix test on character lists. -/
def startsWithB : PyStr → PyStr → Bool
  | [], _ => true
  | _ :: _, [] => false
  | a :: as, b :: bs => a == b && startsWithB as bs

/-- Python `needle in haystack` for strings: substring containment. -/
def containsSub (needle : PyStr) : PyStr → Bool
  | [] => needle.isEmpty
  | c :: rest => startsWithB needle (c :: rest) || containsSub needle rest

/-- Association-list lookup, the embedding of Python `dict.get`. -/
def alistGet {κ α : Type} [DecidableEq κ] : List (κ × α) → κ → Option α
  | [], _ => none
  | (k, v) :: rest, key => if key = k then some v else alistGet rest key

/-- Association-list assignment, the embedding of Python `d[k] = v`
(overwrite in place, append if absent). -/
def alistSet {κ α : Type} [DecidableEq κ] : List (κ × α) → κ → α → List (κ × α)
  | [], key, v => [(key, v)]
  | (k, w) :: rest, key, v =>
      if key = k then (key, v) :: rest else (k, w) :: alistSet rest key v

/-- Association-list removal, the embedding of Python `d.pop(k, None)`:
every binding of the key goes (a Python dict holds at most one). -/
def alistRemove {κ α : Type} [DecidableEq κ] : List (κ × α) → κ → List (κ × α)
  | [], _ => []
  | (k, w) :: rest, key =>
      if key = k then alistRemove rest key else (k, w) :: alistRemove rest key

/-- Opaque JSON values (tool schemas, tool-call arguments and results). -/
inductive Json : Type
  | null
  | bool (b : Bool)
  | num (q : Rat)
  | str (s : PyStr)
  | arr (elements : List Json)
  | obj (fields : List (PyStr × Json))

/-- Outcome of a Python expression that can raise: either a value or an
exception carrying `str(e)`. -/
inductive PyOutcome (α : Type) : Type
  | ok (a : α)
  | exc (msg : PyStr)

/-- types.py: risk level hint for tools. -/
inductive RiskHint : Type
  | low
  | medium
  | high
  | unknown
deriving DecidableEq

/-- types.py: server connection status. -/
inductive ServerStatusEnum : Type
  | online
  | offline
  | connecting
  | error
deriving DecidableEq

/-- manager.py `_infer_risk_hint`: the list `low_risk_patterns`. -/
def low_risk_patterns : List PyStr :=
  [pyStr "read", pyStr "get", pyStr "list", pyStr "search", pyStr "query",
   pyStr "fetch", pyStr "describe"]

/-- manager.py `_infer_risk_hint`: the list `high_risk_patterns`. -/
def high_risk_patterns : List PyStr :=
  [pyStr "delete", pyStr "remove", pyStr "drop", pyStr "execute", pyStr "run",
   pyStr "write", pyStr "create", pyStr "update", pyStr "modify", pyStr "send",
   pyStr "post", pyStr "put"]

/-- manager.py: the string `f"{tool_name} {description}".lower()` shared by
risk inference and tag extraction. -/
def combinedLower (tool_name description : PyStr) : PyStr :=
  pyLower (tool_name ++ pyStr " " ++ description)

/-- manager.py `_infer_risk_hint`: first pattern loop returning HIGH, then
the LOW loop, else MEDIUM.  A `for` loop that returns on the first match is
equivalent to `List.any`. -/
def infer_risk_hint (tool_name description : PyStr) : RiskHint :=
  let combined := combinedLower tool_name description
  if high_risk_patterns.any (fun p => containsSub p combined) then .high
  else if low_risk_patterns.any (fun p => containsSub p combined) then .low
  else .medium

/-- manager.py `_extract_tags`: the `categories` dict in insertion order. -/
def tagCategories : List (PyStr × List PyStr) :=
  [(pyStr "database",
    [pyStr "db", pyStr "sql", pyStr "query", pyStr "table", pyStr "database"]),
   (pyStr "file",
    [pyStr "file", pyStr "directory", pyStr "folder", pyStr "path"]),
   (pyStr "git",
    [pyStr "git", pyStr "commit", pyStr "branch", pyStr "repository", pyStr "repo"]),
   (pyStr "http",
    [pyStr "http", pyStr "api", pyStr "request", pyStr "fetch", pyStr "url"]),
   (pyStr "search",
    [pyStr "search", pyStr "find", pyStr "grep", pyStr "filter"]),
   (pyStr "code",
    [pyStr "code", pyStr "function", pyStr "class", pyStr "symbol"])]

/-- manager.py `_extract_tags`.  The Python set `{server_name} ∪ matched
categories` is embedded as a list; membership coincides (the set only
deduplicates the corner case where the server name equals a category name,
which no claim depends on). -/
def extract_tags (server_name tool_name description : PyStr) : List PyStr :=
  let combined := combinedLower tool_name description
  server_name ::
    tagCategories.filterMap (fun ckw =>
      if ckw.2.any (fun keyword => containsSub keyword combined) then
        some ckw.1
      else none)

/-- manager.py `_truncate_description` (`max_length` defaults to 100):
empty in, empty out; short strings unchanged; otherwise the slice
`description[: max_length - 3]` with `"..."` appended. -/
def truncate_description (description : PyStr) (max_length : Nat := 100) : PyStr :=
  if description.isEmpty then []
  else if description.length ≤ max_length then description
  else description.take (max_length - 3) ++ pyStr "..."

/-- types.py `ToolInfo`. -/
structure ToolInfo : Type where
  tool_id : PyStr
  server_name : PyStr
  tool_name : PyStr
  description : PyStr
  short_description : PyStr
  input_schema : Json
  tags : List PyStr
  risk_hint : RiskHint

/-- handlers.py `catalog_search`, the `filters.tags` step (lines 217-219):
the filter tags are lowercased, and a tool is kept when any lowercased
filter tag is a member (`in`, exact equality) of the tool's tag list. -/
def catalogFilterTags (filterTags : List PyStr) (tools : List ToolInfo) :
    List ToolInfo :=
  let filter_tags := filterTags.map pyLower
  tools.filter (fun t => filter_tags.any (fun tag => t.tags.contains tag))

/-- A sample catalog tool from a server whose name carries an uppercase
letter; its tags are exactly what `_extract_tags` computes for it, which
includes the server name verbatim. -/
def ghTool : ToolInfo :=
  { tool_id := pyStr "GitHub::create_issue"
    server_name := pyStr "GitHub"
    tool_name := pyStr "create_issue"
    description := pyStr "Create a GitHub issue"
    short_description := pyStr "Create a GitHub issue"
    input_schema := .obj []
    tags := extract_tags (pyStr "GitHub") (pyStr "create_issue")
      (pyStr "Create a GitHub issue")
    risk_hint := .high }

/-- types.py `McpServerConfig`. -/
structure McpServerConfig : Type where
  command : PyStr
  args : List PyStr := []
  cwd : Option PyStr := none
  env : Option (List (PyStr × PyStr)) := none
  url : Option PyStr := none
  headers : Option (List (PyStr × PyStr)) := none

/-- types.py: the `source` tag of a resolved config. -/
inductive ConfigSource : Type
  | project
  | user
  | custom
deriving DecidableEq

/-- types.py `ResolvedServerConfig`. -/
structure ResolvedServerConfig : Type where
  name : PyStr
  source : ConfigSource
  config : McpServerConfig

/-- types.py `ServerStatus` exactly as declared (lines 74-81): five fields,
nothing more. -/
structure ServerStatus : Type where
  name : PyStr
  status : ServerStatusEnum
  tool_count : Nat
  last_error : Option PyStr := none
  last_connected_at : Option Rat := none

/-- The field names the pydantic model `ServerStatus` declares in types.py. -/
def serverStatusFieldNames : List String :=
  ["name", "status", "tool_count", "last_error", "last_connected_at"]

/-- pydantic `BaseModel.__setattr__` with the default configuration:
assigning an attribute that is not a declared field raises
`ValueError: "<class>" object has no field "<name>"`.  types.py declares no
`model_config`, so this default applies to every model there. -/
def pydanticSetattrCheck (declared : List String) (className fieldName : String) :
    Except String Unit :=
  if declared.contains fieldName then .ok ()
  else .error ("\x22" ++ className ++ "\x22 object has no field \x22" ++
    fieldName ++ "\x22")

/-- The `ValueError` text produced by assigning `pending_request_count` on
the types.py `ServerStatus`. -/
def noFieldPendingCount : String :=
  "\x22ServerStatus\x22 object has no field \x22pending_request_count\x22"

/-- The `ValueError` text produced by assigning `last_activity_at` on the
types.py `ServerStatus`. -/
def noFieldLastActivity : String :=
  "\x22ServerStatus\x22 object has no field \x22last_activity_at\x22"

/-- The single-shot completion slot of a pending request
(`asyncio.Future`). -/
inductive FutureState : Type
  | pending
  | result (v : Json)
  | exception (msg : PyStr)
  | cancelled

/-- `Future.done()`. -/
def FutureState.done : FutureState → Bool
  | .pending => false
  | _ => true

/-- manager.py `PendingRequest` (dataclass). -/
structure PendingRequest : Type where
  request_id : Int
  server_name : PyStr
  tool_id : PyStr
  started_at : Rat
  last_heartbeat : Rat
  timeout_ms : Int
  future : FutureState

/-- manager.py `ManagedClient` (dataclass).  The subprocess handle is
abstracted away; stream behavior enters through the operations below. -/
structure ManagedClient : Type where
  config : ResolvedServerConfig
  status : ServerStatus
  request_id : Int := 0
  pending_requests : List (Int × PendingRequest) := []
  response_times : List Rat := []

/-- manager.py `HEARTBEAT_STALL_THRESHOLD` (seconds). -/
def HEARTBEAT_STALL_THRESHOLD : Rat := 120

/-- manager.py `_send_request`, lines 351-374: allocate the next request
id, build the `PendingRequest`, insert it into `pending_requests`, and then
execute `managed.status.pending_request_count = len(managed.pending_requests)`
— a pydantic attribute assignment on the types.py `ServerStatus`.  The
returned `Except` is the outcome of that assignment; on `.error` the
exception propagates to the awaiting caller before the frame is written. -/
def sendRequestRegister (m : ManagedClient) (now : Rat) (tool_id : PyStr)
    (timeout_ms : Int) : ManagedClient × Except String Unit :=
  let rid := m.request_id + 1
  let pending : PendingRequest :=
    { request_id := rid
      server_name := m.config.name
      tool_id := tool_id
      started_at := now
      last_heartbeat := now
      timeout_ms := timeout_ms
      future := .pending }
  let m :=
    { m with
        request_id := rid
        pending_requests := alistSet m.pending_requests rid pending }
  (m, pydanticSetattrCheck serverStatusFieldNames "ServerStatus"
        "pending_request_count")

/-- A line read from a child's stdout, pre-classified by `json.loads`:
either a decoded JSON-RPC message or undecodable bytes. -/
inductive StdoutLine : Type
  | json (id : Option Int) (errorMessage : Option (Option PyStr))
      (result : Option Json)
  | garbage (raw : PyStr)

/-- manager.py `_read_stdout`, loop body for one line (lines 285-321).
First the loop executes `managed.status.last_activity_at = now`; this is a
pydantic assignment of an undeclared field, and its `ValueError` is raised
outside the inner `try` that only catches `json.JSONDecodeError`, so it
escapes to the outer handler.  The rest of the body is embedded behind the
check for fidelity: resolve a matching pending entry (updating heartbeat,
response times, the two further undeclared status fields, and the waiter),
ignore unmatched messages, and on undecodable input advance every pending
heartbeat.  The middle component of the result is the final state of the
waiter this line resolved, if any (the sender holds a reference to it). -/
def readStdoutHandleLine (m : ManagedClient) (now : Rat) (line : StdoutLine) :
    ManagedClient × Option (Int × FutureState) × Except String Unit :=
  match pydanticSetattrCheck serverStatusFieldNames "ServerStatus"
      "last_activity_at" with
  | .error e => (m, none, .error e)
  | .ok _ =>
    match line with
    | .garbage _ =>
        ({ m with
            pending_requests := m.pending_requests.map fun kp =>
              (kp.1, { kp.2 with last_heartbeat := now }) },
         none, .ok ())
    | .json id errorMessage result =>
      match id with
      | none => (m, none, .ok ())
      | some msg_id =>
        match alistGet m.pending_requests msg_id with
        | none => (m, none, .ok ())
        | some pending =>
          let m := { m with
            pending_requests := alistRemove m.pending_requests msg_id }
          let pending := { pending with last_heartbeat := now }
          let elapsed_ms := (now - pending.started_at) * 1000
          let m := { m with
            response_times := (m.response_times ++ [elapsed_ms]).drop
              ((m.response_times.length + 1) - 100) }
          match pydanticSetattrCheck serverStatusFieldNames "ServerStatus"
              "avg_response_time_ms" with
          | .error e => (m, some (msg_id, pending.future), .error e)
          | .ok _ =>
            match pydanticSetattrCheck serverStatusFieldNames "ServerStatus"
                "pending_request_count" with
            | .error e => (m, some (msg_id, pending.future), .error e)
            | .ok _ =>
              match errorMessage with
              | some em =>
                  let msg := em.getD (pyStr "Unknown error")
                  (m, some (msg_id, .exception msg), .ok ())
              | none =>
                  (m, some (msg_id, .result (result.getD (.obj []))), .ok ())

/-- How `_read_stdout`'s `while` loop ended: end of stream, or an
exception caught by the outer `except` (which logs and falls through to the
`finally` block). -/
inductive ReadExit : Type
  | eof
  | exc (msg : String)

/-- manager.py `_read_stdout`, the `while True` loop (lines 279-323) over a
prescribed sequence of stdout lines; the list ending means `readline`
returned empty (EOF). -/
def readStdoutLoop (m : ManagedClient) (now : Rat) :
    List StdoutLine → ManagedClient × ReadExit
  | [] => (m, .eof)
  | line :: rest =>
      match readStdoutHandleLine m now line with
      | (m', _, .ok _) => readStdoutLoop m' now rest
      | (m', _, .error e) => (m', .exc e)

/-- manager.py `_read_stdout`, the `finally` block (lines 324-337): promote
an ONLINE child to ERROR with `last_error = "Server process exited"`, fail
every not-yet-done pending waiter with
`ConnectionError(f"Server {name} disconnected")`, clear the table, and then
execute `managed.status.pending_request_count = 0` — the pydantic
assignment again.  The middle component returns the final state of each
waiter (callers of `_send_request` hold references to these futures). -/
def readStdoutFinally (name : PyStr) (m : ManagedClient) :
    ManagedClient × List (Int × FutureState) × Except String Unit :=
  let st := m.status
  let st :=
    if st.status = ServerStatusEnum.online then
      { st with
          status := ServerStatusEnum.error
          last_error := some (pyStr "Server process exited") }
    else st
  let waiters := m.pending_requests.map fun kp =>
    (kp.1,
     if kp.2.future.done then kp.2.future
     else FutureState.exception
       (pyStr "Server " ++ name ++ pyStr " disconnected"))
  let m := { m with status := st, pending_requests := [] }
  (m, waiters,
   pydanticSetattrCheck serverStatusFieldNames "ServerStatus"
     "pending_request_count")

/-- A sample resolved config, mirroring the fixtures in
tests/test_client_manager.py. -/
def demoConfig : ResolvedServerConfig :=
  { name := pyStr "test"
    source := .project
    config := { command := pyStr "cmd" } }

/-- A sample ONLINE status, as in tests/test_client_manager.py. -/
def demoStatusOnline : ServerStatus :=
  { name := pyStr "test", status := .online, tool_count := 5 }

/-- A sample pending request (id 1, not yet done), as in
tests/test_client_manager.py. -/
def demoPending : PendingRequest :=
  { request_id := 1
    server_name := pyStr "test"
    tool_id := pyStr "test::tool"
    started_at := 0
    last_heartbeat := 0
    timeout_ms := 30000
    future := .pending }

/-- An ONLINE managed child with one pending request. -/
def demoClient : ManagedClient :=
  { config := demoConfig
    status := demoStatusOnline
    request_id := 1
    pending_requests := [(1, demoPending)] }

/-- Scan of `lastMatchIdx`: walk the suffixes of the string keeping the
index of the most recent position where `sep` starts. -/
def lastMatchIdxGo (sep : PyStr) : Nat → PyStr → Option Nat → Option Nat
  | i, rest, acc =>
    let acc' := if startsWithB sep rest then some i else acc
    match rest with
    | [] => acc'
    | _ :: t => lastMatchIdxGo sep (i + 1) t acc'

/-- Index of the last position at which `sep` occurs in `s`, if any. -/
def lastMatchIdx (sep s : PyStr) : Option Nat :=
  lastMatchIdxGo sep 0 s none

/-- Python `s.rsplit(sep, 1)` destructured into two parts; callers in the
source only reach it when `sep` occurs in `s`, so the no-occurrence case is
unreachable there. -/
def pyRSplitOnce (sep s : PyStr) : PyStr × PyStr :=
  match lastMatchIdx sep s with
  | some i => (s.take i, s.drop (i + sep.length))
  | none => (s, [])

/-- Digits of a decimal literal to a number; `none` when empty or when a
non-digit occurs. -/
def digitsToNat : PyStr → Option Nat
  | [] => none
  | ds =>
      ds.foldl
        (fun acc c =>
          acc.bind fun a =>
            if c.isDigit then some (a * 10 + (c.toNat - 48)) else none)
        (some 0)

/-- Python `int(s)` on the identifiers the manager handles: optional
surrounding spaces, an optional sign, then decimal digits; anything else
raises `ValueError` (`none` here).  Pythonic underscore separators and
non-ASCII digits are not modelled. -/
def pyIntParse (s : PyStr) : Option Int :=
  let t := ((s.dropWhile (· = ' ')).reverse.dropWhile (· = ' ')).reverse
  match t with
  | '+' :: ds => (digitsToNat ds).map Int.ofNat
  | '-' :: ds => (digitsToNat ds).map fun n => -(n : Int)
  | ds => (digitsToNat ds).map Int.ofNat

/-- The tuple returned by `cancel_request`:
`(status, message, was_stalled, elapsed_seconds)`. -/
structure CancelResult : Type where
  status : PyStr
  message : PyStr
  was_stalled : Bool
  elapsed : Option Rat

/-- manager.py `cancel_request` (lines 702-765).  Returns the updated
client map, the final state of the waiter it touched (if any; the awaiting
sender holds that future), and either the returned tuple or a raised
exception.  The numeric interpolation inside the refusal message
(`{heartbeat_age:.0f}`) is elided; no claim depends on message text.  On
the cancel path the source cancels the future, pops the table entry, and
then assigns `managed.status.pending_request_count` — a pydantic
assignment of a field `ServerStatus` does not declare. -/
def cancel_request (clients : List (PyStr × ManagedClient))
    (request_id : PyStr) (force : Bool) (now : Rat) :
    List (PyStr × ManagedClient) × Option FutureState ×
      Except String CancelResult :=
  if !containsSub (pyStr "::") request_id then
    (clients, none,
     .ok ⟨pyStr "not_found",
          pyStr "Invalid request_id format: " ++ request_id, false, none⟩)
  else
    let parts := pyRSplitOnce (pyStr "::") request_id
    let server_name := parts.1
    let local_id_str := parts.2
    match pyIntParse local_id_str with
    | none =>
        (clients, none,
         .ok ⟨pyStr "not_found",
              pyStr "Invalid local_id: " ++ local_id_str, false, none⟩)
    | some local_id =>
      match alistGet clients server_name with
      | none =>
          (clients, none,
           .ok ⟨pyStr "not_found",
                pyStr "Server not found: " ++ server_name, false, none⟩)
      | some managed =>
        match alistGet managed.pending_requests local_id with
        | none =>
            (clients, none,
             .ok ⟨pyStr "not_found",
                  pyStr "Request not found: " ++ request_id, false, none⟩)
        | some pending =>
          if pending.future.done then
            (clients, none,
             .ok ⟨pyStr "already_complete",
                  pyStr "Request already completed", false, none⟩)
          else
            let elapsed := now - pending.started_at
            let heartbeat_age := now - pending.last_heartbeat
            let was_stalled : Bool :=
              decide (HEARTBEAT_STALL_THRESHOLD < heartbeat_age)
            if !force && !was_stalled &&
                decide (elapsed < (pending.timeout_ms : Rat) / 1000) then
              (clients, none,
               .ok ⟨pyStr "refused",
                    pyStr "Request is healthy. Use force=true to cancel anyway.",
                    false, some elapsed⟩)
            else
              let managed :=
                { managed with
                    pending_requests :=
                      alistRemove managed.pending_requests local_id }
              let clients := alistSet clients server_name managed
              match pydanticSetattrCheck serverStatusFieldNames
                  "ServerStatus" "pending_request_count" with
              | .error e => (clients, some .cancelled, .error e)
              | .ok _ =>
                  (clients, some .cancelled,
                   .ok ⟨pyStr "cancelled",
                        pyStr "Request cancelled successfully",
                        was_stalled, some elapsed⟩)

/-- The demo client map keyed by server name. -/
def demoClients : List (PyStr × ManagedClient) := [(pyStr "test", demoClient)]

/-- types.py `InvokeOptions` after validation. -/
structure InvokeOptions : Type where
  timeout_ms : Int := 30000
  max_output_chars : Option Int := none
  redact_secrets : Bool := false

/-- types.py `InvokeInput` after validation. -/
structure InvokeInput : Type where
  tool_id : PyStr
  arguments : List (PyStr × Json) := []
  options : Option InvokeOptions := none

/-- types.py `InvokeOutput`. -/
structure InvokeOutput : Type where
  tool_id : PyStr
  ok : Bool
  result : Option Json := none
  truncated : Bool
  summary : Option PyStr := none
  raw_size_estimate : Int
  errors : Option (List PyStr) := none

/-- The raw `options` object of a request prior to validation; a missing
key is `none`. -/
structure InvokeRawOptions : Type where
  timeout_ms : Option Int := none
  max_output_chars : Option Int := none
  redact_secrets : Option Bool := none

/-- The raw `input_data` dict of a `gateway.invoke` request prior to
validation; a missing key is `none`.  (Keys bound to values of entirely
wrong types fail validation the same way as missing keys and are not
distinguished here.) -/
structure InvokeRawInput : Type where
  tool_id : Option PyStr := none
  arguments : Option (List (PyStr × Json)) := none
  options : Option InvokeRawOptions := none

/-- `InvokeInput.model_validate(input_data)` per the pydantic field
declarations in types.py: `tool_id` is required with `min_length=1`;
`arguments` defaults to `{}`; `options.timeout_ms` defaults to 30000 and
must lie in [1000, 300000]; `options.max_output_chars` is optional in
[100, 100000]; `options.redact_secrets` defaults to `False`.  A violation
raises `pydantic.ValidationError`. -/
def invokeModelValidate (raw : InvokeRawInput) : Except PyStr InvokeInput :=
  match raw.tool_id with
  | none => .error (pyStr "validation error: tool_id is required")
  | some tid =>
    if tid.length < 1 then
      .error (pyStr "validation error: tool_id must have at least 1 character")
    else
      match raw.options with
      | none =>
          .ok { tool_id := tid, arguments := raw.arguments.getD [] }
      | some o =>
        let t := o.timeout_ms.getD 30000
        if t < 1000 ∨ 300000 < t then
          .error (pyStr "validation error: options.timeout_ms out of range")
        else
          match o.max_output_chars with
          | some c =>
              if c < 100 ∨ 100000 < c then
                .error
                  (pyStr "validation error: options.max_output_chars out of range")
              else
                .ok { tool_id := tid
                      arguments := raw.arguments.getD []
                      options := some
                        { timeout_ms := t
                          max_output_chars := some c
                          redact_secrets := o.redact_secrets.getD false } }
          | none =>
              .ok { tool_id := tid
                    arguments := raw.arguments.getD []
                    options := some
                      { timeout_ms := t
                        max_output_chars := none
                        redact_secrets := o.redact_secrets.getD false } }

/-- The dict returned by `PolicyManager.process_output` in the success
case. -/
structure ProcessedOutput : Type where
  result : Json
  truncated : Bool
  summary : Option PyStr
  raw_size : Int

/-- handlers.py `GatewayTools.invoke` (lines 318-375).  The collaborators
are passed in as behaviors: `tools` is the client manager's catalog,
`is_tool_allowed` the policy predicate (the policy module is not part of
the embedded sources; only its boolean answer matters here), `call_tool`
the dispatch through the child (any timeout, disconnect, remote error or
other exception appears as `.exc`), and `process_output` the policy
post-processing.  Note that `InvokeInput.model_validate` runs before the
`try` block, so a validation error propagates to the caller as `.exc`. -/
def invoke (tools : List (PyStr × ToolInfo))
    (is_tool_allowed : PyStr → Bool)
    (call_tool : PyStr → List (PyStr × Json) → Int → PyOutcome Json)
    (process_output : Json → Bool → Option Int → PyOutcome ProcessedOutput)
    (input_data : InvokeRawInput) : PyOutcome InvokeOutput :=
  match invokeModelValidate input_data with
  | .error e => .exc e
  | .ok parsed =>
    match alistGet tools parsed.tool_id with
    | none =>
        .ok { tool_id := parsed.tool_id
              ok := false
              truncated := false
              raw_size_estimate := 0
              errors := some [pyStr "Tool not found: " ++ parsed.tool_id] }
    | some _ =>
      if !is_tool_allowed parsed.tool_id then
        .ok { tool_id := parsed.tool_id
              ok := false
              truncated := false
              raw_size_estimate := 0
              errors := some
                [pyStr "Tool is not allowed by policy: " ++ parsed.tool_id] }
      else
        let timeout_ms :=
          match parsed.options with
          | some o => o.timeout_ms
          | none => 30000
        match call_tool parsed.tool_id parsed.arguments timeout_ms with
        | .exc e =>
            .ok { tool_id := parsed.tool_id
                  ok := false
                  truncated := false
                  raw_size_estimate := 0
                  errors := some [e] }
        | .ok result =>
          let max_bytes :=
            (parsed.options.bind (·.max_output_chars)).map (· * 4)
          let redact :=
            match parsed.options with
            | some o => o.redact_secrets
            | none => false
          match process_output result redact max_bytes with
          | .exc e =>
              .ok { tool_id := parsed.tool_id
                    ok := false
                    truncated := false
                    raw_size_estimate := 0
                    errors := some [e] }
          | .ok processed =>
              .ok { tool_id := parsed.tool_id
                    ok := true
                    result := some processed.result
                    truncated := processed.truncated
                    summary := processed.summary
                    raw_size_estimate := processed.raw_size }

/-- The timeout `invoke` passes to `call_tool`: `options.timeout_ms` when
options were given, else the 30000 default (handlers.py line 343). -/
def invokeTimeout (parsed : InvokeInput) : Int :=
  match parsed.options with
  | some o => o.timeout_ms
  | none => 30000

/-- The redaction flag `invoke` passes to `process_output`
(handlers.py line 353). -/
def invokeRedact (parsed : InvokeInput) : Bool :=
  match parsed.options with
  | some o => o.redact_secrets
  | none => false

/-- The byte cap `invoke` passes to `process_output`:
`max_output_chars * 4` when provided (handlers.py lines 349-351). -/
def invokeMaxBytes (parsed : InvokeInput) : Option Int :=
  (parsed.options.bind fun o => o.max_output_chars).map fun c => c * 4

/-- Modelled from the spec: `make_tool_id` lives in
mcp_gateway/config/loader.py, which is not among the provided sources; the
spec defines the canonical join `tool_id = "{server}::{tool}"`. -/
def make_tool_id (server tool : PyStr) : PyStr :=
  server ++ pyStr "::" ++ tool

/-- One entry of the `tools/list` reply: a dict with a `name` and optional
`description` / `inputSchema` keys. -/
structure RawTool : Type where
  name : PyStr
  description : Option PyStr := none
  inputSchema : Option Json := none

/-- The manager-level registries of `ClientManager`. -/
structure ManagerState : Type where
  clients : List (PyStr × ManagedClient)
  tools : List (PyStr × ToolInfo)
  servers : List (PyStr × ServerStatus)
  revision_id : PyStr
  last_refresh_ts : Rat

/-- The tool-indexing loop shared by `_connect_server` and `adopt_process`
(insert each tool up to `max_tools_per_server`, counting `indexed`). -/
def indexTools (tools0 : List (PyStr × ToolInfo)) (name : PyStr)
    (tools : List RawTool) (maxTools : Nat) :
    List (PyStr × ToolInfo) × Nat :=
  (tools.take maxTools).foldl
    (fun acc tool =>
      let description := tool.description.getD []
      let tool_id := make_tool_id name tool.name
      (alistSet acc.1 tool_id
        { tool_id := tool_id
          server_name := name
          tool_name := tool.name
          description := description
          short_description := truncate_description description
          input_schema := tool.inputSchema.getD (.obj [])
          tags := extract_tags name tool.name description
          risk_hint := infer_risk_hint tool.name description },
       acc.2 + 1))
    (tools0, 0)

/-- How one `_connect_server` run interacts with the outside world: the
spawn raised, the `initialize` await raised, the `tools/list` await raised,
or `tools/list` returned a list.  (The awaits go through `_send_request`,
whose own pydantic slip surfaces here as one possible `initFail`
message.) -/
inductive ConnectOutcome : Type
  | spawnFail (msg : PyStr)
  | initFail (msg : PyStr)
  | toolsListFail (msg : PyStr)
  | toolsOk (tools : List RawTool)

/-- manager.py `_connect_server` (lines 165-260).  Ordering follows the
source: the CONNECTING status is registered in `_servers` first; the
missing-command check and the spawn happen before the `try`, so their
exceptions leave that CONNECTING entry behind and never reach the
`except` that marks ERROR; `initialize` and `tools/list` failures do reach
it.  The status object is shared between `_servers[name]` and
`managed.status` in Python; the model writes both registries through. -/
def connectServer (st : ManagerState) (config : ResolvedServerConfig)
    (outcome : ConnectOutcome) (now : Rat) (maxTools : Nat) :
    ManagerState × PyOutcome Unit :=
  let name := config.name
  let status : ServerStatus :=
    { name := name, status := .connecting, tool_count := 0 }
  let st := { st with servers := alistSet st.servers name status }
  if config.config.command.isEmpty then
    (st, .exc (pyStr "Server " ++ name ++
      pyStr " missing command - only stdio transport supported"))
  else
    match outcome with
    | .spawnFail msg => (st, .exc msg)
    | .initFail msg =>
        let managed : ManagedClient := { config := config, status := status }
        let st := { st with clients := alistSet st.clients name managed }
        let statusE :=
          { status with status := ServerStatusEnum.error,
                        last_error := some msg }
        ({ st with
            servers := alistSet st.servers name statusE
            clients := alistSet st.clients name
              { managed with status := statusE } },
         .exc msg)
    | .toolsListFail msg =>
        let managed : ManagedClient := { config := config, status := status }
        let st := { st with clients := alistSet st.clients name managed }
        let statusE :=
          { status with status := ServerStatusEnum.error,
                        last_error := some msg }
        ({ st with
            servers := alistSet st.servers name statusE
            clients := alistSet st.clients name
              { managed with status := statusE } },
         .exc msg)
    | .toolsOk tools =>
        let managed : ManagedClient := { config := config, status := status }
        let st := { st with clients := alistSet st.clients name managed }
        let indexed := indexTools st.tools name tools maxTools
        let statusOn :=
          { status with status := ServerStatusEnum.online,
                        tool_count := indexed.2,
                        last_connected_at := some now }
        ({ st with
            tools := indexed.1
            servers := alistSet st.servers name statusOn
            clients := alistSet st.clients name
              { managed with status := statusOn } },
         .ok ())

/-- manager.py `connect_all`, the per-config loop (lines 152-158): each
failure is collected as `f"Failed to connect to {name}: {e}"` and the loop
proceeds to the next config. -/
def connectAllGo (now : Rat) (maxTools : Nat) :
    ManagerState → List (ResolvedServerConfig × ConnectOutcome) →
      ManagerState × List PyStr
  | st, [] => (st, [])
  | st, job :: rest =>
      let step := connectServer st job.1 job.2 now maxTools
      let tail := connectAllGo now maxTools step.1 rest
      match step.2 with
      | .ok _ => (tail.1, tail.2)
      | .exc e =>
          (tail.1,
           (pyStr "Failed to connect to " ++ job.1.name ++ pyStr ": " ++ e)
             :: tail.2)

/-- manager.py `connect_all` (lines 148-163): run the loop, then regenerate
the revision id and refresh timestamp.  The fresh random revision string is
passed in (`_generate_revision_id` draws randomness and wall-clock time). -/
def connect_all (st : ManagerState)
    (jobs : List (ResolvedServerConfig × ConnectOutcome)) (now : Rat)
    (maxTools : Nat) (newRevision : PyStr) : ManagerState × List PyStr :=
  let run := connectAllGo now maxTools st jobs
  ({ run.1 with revision_id := newRevision, last_refresh_ts := now }, run.2)

/-- An empty manager, as built by `ClientManager.__init__`. -/
def demoManagerState : ManagerState :=
  { clients := []
    tools := []
    servers := []
    revision_id := pyStr "rev-0"
    last_refresh_ts := 0 }

/-- How one `adopt_process` run interacts with the outside world: one of the
three validation checks failed (the process already exited, or a pipe is
missing), the `initialize` await raised, the `tools/list` await raised, or
`tools/list` returned a list. -/
inductive AdoptOutcome : Type
  | alreadyExited
  | noStdin
  | noStdout
  | initFail (msg : PyStr)
  | toolsListFail (msg : PyStr)
  | toolsOk (tools : List RawTool)

/-- manager.py `adopt_process` (lines 457-565).  Ordering follows the
source: the three validation checks raise before anything is registered;
then the CONNECTING status and the managed client are registered; handshake
or tools/list failures take the `except` path, which marks the status ERROR,
pops the name from both registries and re-raises; only the success path
regenerates `revision_id` and `last_refresh_ts`. -/
def adoptProcess (st : ManagerState) (name : PyStr)
    (config : ResolvedServerConfig) (outcome : AdoptOutcome) (now : Rat)
    (maxTools : Nat) (newRevision : PyStr) : ManagerState × PyOutcome Unit :=
  match outcome with
  | .alreadyExited =>
      (st, .exc (pyStr "Process for " ++ name ++
        pyStr " has already exited"))
  | .noStdin =>
      (st, .exc (pyStr "Process for " ++ name ++ pyStr " has no stdin pipe"))
  | .noStdout =>
      (st, .exc (pyStr "Process for " ++ name ++ pyStr " has no stdout pipe"))
  | .initFail msg =>
      let status : ServerStatus :=
        { name := name, status := .connecting, tool_count := 0 }
      let managed : ManagedClient := { config := config, status := status }
      let st := { st with servers := alistSet st.servers name status,
                          clients := alistSet st.clients name managed }
      let statusE := { status with status := ServerStatusEnum.error,
                                   last_error := some msg }
      let st := { st with servers := alistSet st.servers name statusE,
                          clients := alistSet st.clients name
                            { managed with status := statusE } }
      ({ st with clients := alistRemove st.clients name,
                 servers := alistRemove st.servers name },
       .exc msg)
  | .toolsListFail msg =>
      let status : ServerStatus :=
        { name := name, status := .connecting, tool_count := 0 }
      let managed : ManagedClient := { config := config, status := status }
      let st := { st with servers := alistSet st.servers name status,
                          clients := alistSet st.clients name managed }
      let statusE := { status with status := ServerStatusEnum.error,
                                   last_error := some msg }
      let st := { st with servers := alistSet st.servers name statusE,
                          clients := alistSet st.clients name
                            { managed with status := statusE } }
      ({ st with clients := alistRemove st.clients name,
                 servers := alistRemove st.servers name },
       .exc msg)
  | .toolsOk tools =>
      let status : ServerStatus :=
        { name := name, status := .connecting, tool_count := 0 }
      let managed : ManagedClient := { config := config, status := status }
      let st := { st with servers := alistSet st.servers name status,
                          clients := alistSet st.clients name managed }
      let indexed := indexTools st.tools name tools maxTools
      let statusOn := { status with status := ServerStatusEnum.online,
                                    tool_count := indexed.2,
                                    last_connected_at := some now }
      ({ st with tools := indexed.1
                 servers := alistSet st.servers name statusOn
                 clients := alistSet st.clients name
                   { managed with status := statusOn }
                 revision_id := newRevision
                 last_refresh_ts := now },
       .ok ())

/-- A manager that already holds a connected server named `test`. -/
def demoAdoptState : ManagerState :=
  { clients := [(pyStr "test", demoClient)]
    tools := []
    servers := [(pyStr "test", demoStatusOnline)]
    revision_id := pyStr "rev-0"
    last_refresh_ts := 0 }

/-- C6: risk inference is a case-insensitive substring match over
`"{tool_name} {description}"`: high if any high-risk pattern occurs, else
low if any low-risk pattern occurs, else medium, with high winning on tie;
the three concrete examples from the spec evaluate as claimed. -/
theorem C6_risk_inference :
    (∀ n d,
      (infer_risk_hint n d = RiskHint.high ↔
        ∃ p ∈ high_risk_patterns, containsSub p (combinedLower n d) = true) ∧
      (infer_risk_hint n d = RiskHint.low ↔
        (¬ ∃ p ∈ high_risk_patterns, containsSub p (combinedLower n d) = true) ∧
        ∃ p ∈ low_risk_patterns, containsSub p (combinedLower n d) = true) ∧
      (infer_risk_hint n d = RiskHint.medium ↔
        (¬ ∃ p ∈ high_risk_patterns, containsSub p (combinedLower n d) = true) ∧
        ¬ ∃ p ∈ low_risk_patterns, containsSub p (combinedLower n d) = true)) ∧
    infer_risk_hint (pyStr "delete_file") (pyStr "") = RiskHint.high ∧
    infer_risk_hint (pyStr "read_file") (pyStr "Read a file") = RiskHint.low ∧
    infer_risk_hint (pyStr "process_item") (pyStr "Process an item") =
      RiskHint.medium := by
  refine ⟨fun n d => ?_, by decide, by decide, by decide⟩
  by_cases h1 :
      (high_risk_patterns.any fun p => containsSub p (combinedLower n d)) = true
  · have e : infer_risk_hint n d = RiskHint.high := by
      simp [infer_risk_hint, h1]
    have h1x := List.any_eq_true.mp h1
    refine ⟨⟨fun _ => h1x, fun _ => e⟩,
            ⟨fun hl => ?_, fun hl => absurd h1x hl.1⟩,
            ⟨fun hm => ?_, fun hm => absurd h1x hm.1⟩⟩
    · exact RiskHint.noConfusion (e.symm.trans hl)
    · exact RiskHint.noConfusion (e.symm.trans hm)
  · have nh1 :
        ¬ ∃ p ∈ high_risk_patterns, containsSub p (combinedLower n d) = true :=
      fun hx => h1 (List.any_eq_true.mpr hx)
    by_cases h2 :
        (low_risk_patterns.any fun p => containsSub p (combinedLower n d)) = true
    · have e : infer_risk_hint n d = RiskHint.low := by
        simp [infer_risk_hint, h1, h2]
      have h2x := List.any_eq_true.mp h2
      refine ⟨⟨fun hh => ?_, fun hh => absurd hh nh1⟩,
              ⟨fun _ => ⟨nh1, h2x⟩, fun _ => e⟩,
              ⟨fun hm => ?_, fun hm => absurd h2x hm.2⟩⟩
      · exact RiskHint.noConfusion (e.symm.trans hh)
      · exact RiskHint.noConfusion (e.symm.trans hm)
    · have nh2 :
          ¬ ∃ p ∈ low_risk_patterns, containsSub p (combinedLower n d) = true :=
        fun hx => h2 (List.any_eq_true.mpr hx)
      have e : infer_risk_hint n d = RiskHint.medium := by
        simp [infer_risk_hint, h1, h2]
      refine ⟨⟨fun hh => ?_, fun hh => absurd hh nh1⟩,
              ⟨fun hl => ?_, fun hl => absurd hl.2 nh2⟩,
              ⟨fun _ => ⟨nh1, nh2⟩, fun _ => e⟩⟩
      · exact RiskHint.noConfusion (e.symm.trans hh)
      · exact RiskHint.noConfusion (e.symm.trans hl)

/-- C9: `_truncate_description` at max length 100 maps the empty string to
itself, keeps strings of length at most 100 unchanged, and maps longer
strings to a string of length exactly 100 that ends with `"..."`. -/
theorem C9_truncate_description :
    truncate_description (pyStr "") 100 = pyStr "" ∧
    (∀ s : PyStr, s.length ≤ 100 → truncate_description s 100 = s) ∧
    (∀ s : PyStr, 100 < s.length →
      (truncate_description s 100).length = 100 ∧
      ∃ t, truncate_description s 100 = t ++ pyStr "...") := by
  refine ⟨rfl, fun s h => ?_, fun s h => ?_⟩
  · unfold truncate_description
    by_cases hE : s.isEmpty
    · simp [hE, List.isEmpty_iff.mp hE]
    · simp [hE, h]
  · have hne : s.isEmpty = false := by
      cases s with
      | nil => simp at h
      | cons a t => rfl
    have hnle : ¬ s.length ≤ 100 := by omega
    have hdots : (pyStr "...").length = 3 := rfl
    refine ⟨?_, s.take 97, ?_⟩
    · simp only [truncate_description, hne, Bool.false_eq_true, if_false,
        hnle, List.length_append, List.length_take, hdots]
      omega
    · simp only [truncate_description, hne, Bool.false_eq_true, if_false,
        hnle]

/-- Witness for C9 at the spec's boundary inputs `"x"*100` and `"x"*101`. -/
theorem C9_truncate_description_witness :
    truncate_description (List.replicate 100 'x') 100 =
      List.replicate 100 'x' ∧
    (truncate_description (List.replicate 101 'x') 100).length = 100 :=
  ⟨C9_truncate_description.2.1 _ (by simp),
   (C9_truncate_description.2.2 _ (by simp)).1⟩

/-- C7 counterexample: the tool's tag `"GitHub"` equals the filter tag
`"github"` up to letter case, yet `catalog_search`'s tag filter drops the
tool, because only the filter side is lowercased while membership in the
tool's tag list is tested with exact equality. -/
theorem C7_counterexample :
    pyStr "GitHub" ∈ ghTool.tags ∧
    pyLower (pyStr "GitHub") = pyLower (pyStr "github") ∧
    catalogFilterTags [pyStr "github"] [ghTool] = [] := by
  exact ⟨by decide, by decide, rfl⟩

/-- C7 as amended: with `filters.tags` provided, a tool is kept iff some
filter tag, once lowercased, occurs verbatim in the tool's tag list; the
tool's own tags are compared case-sensitively. -/
theorem C7_amended (filterTags : List PyStr) (tools : List ToolInfo)
    (t : ToolInfo) :
    t ∈ catalogFilterTags filterTags tools ↔
      t ∈ tools ∧ ∃ f ∈ filterTags, pyLower f ∈ t.tags := by
  unfold catalogFilterTags
  simp [List.mem_filter, List.any_eq_true]

/-- C2: the claim says `pending_request_count` is bumped on every
insertion; in fact the types.py `ServerStatus` declares no such field, so
the bump in `_send_request` raises `ValueError` on every call — right after
the entry has been inserted into the pending table — and the field can
never track the table's cardinality. -/
theorem C2_pending_count_bump_raises :
    (∀ m now tid tms,
      (sendRequestRegister m now tid tms).2 = .error noFieldPendingCount) ∧
    (sendRequestRegister
        { config := demoConfig, status := demoStatusOnline } 0
        (pyStr "test::tool") 30000).1.pending_requests.length = 1 :=
  ⟨fun _ _ _ _ => rfl, rfl⟩

/-- C4: on stream close while ONLINE the `finally` block does promote the
status to ERROR with `last_error = "Server process exited"`, fail the
pending waiter with a disconnect error and clear the table — but the final
step `managed.status.pending_request_count = 0` raises `ValueError`
(`ServerStatus` has no such field), so the count never becomes 0 and
`_read_stdout` ends by propagating the exception. -/
theorem C4_eof_promotes_error_then_raises :
    readStdoutFinally (pyStr "test") demoClient =
      ({ demoClient with
          status :=
            { demoStatusOnline with
                status := ServerStatusEnum.error
                last_error := some (pyStr "Server process exited") }
          pending_requests := [] },
       [(1, FutureState.exception (pyStr "Server test disconnected"))],
       .error noFieldPendingCount) := rfl

/-- C8: the claim says the reader loop keeps reading for every line
content; in fact the first statement executed for any line is
`managed.status.last_activity_at = now`, which raises `ValueError`
(`ServerStatus` declares no such field) and is caught only by the outer
handler, ending the loop.  On a non-JSON line the pending heartbeat is
never advanced, and a second line is never read; an unmatched JSON line
kills the loop the same way. -/
theorem C8_reader_loop_dies_on_first_line :
    readStdoutLoop demoClient 5
        [StdoutLine.garbage (pyStr "hello"),
         StdoutLine.garbage (pyStr "world")] =
      (demoClient, .exc noFieldLastActivity) ∧
    readStdoutLoop demoClient 5 [StdoutLine.json (some 99) none none] =
      (demoClient, .exc noFieldLastActivity) ∧
    (alistGet demoClient.pending_requests 1).map
        PendingRequest.last_heartbeat = some 0 :=
  ⟨rfl, rfl, rfl⟩

/-- C5: the refusal branch behaves as claimed (healthy, not forced ⇒
`refused`), and the not-found guards return; but the cancel branch —
reached with `force=true` — cancels the waiter and removes the table entry
and then raises `ValueError` instead of returning `"cancelled"`, because
`ServerStatus` declares no `pending_request_count`, so `cancel_request`
does not return one of the four statuses on that path. -/
theorem C5_cancel_path_raises :
    (cancel_request demoClients (pyStr "test::1") false 10).2.2 =
      .ok ⟨pyStr "refused",
           pyStr "Request is healthy. Use force=true to cancel anyway.",
           false, some 10⟩ ∧
    cancel_request demoClients (pyStr "test::1") true 10 =
      ([(pyStr "test", { demoClient with pending_requests := [] })],
       some FutureState.cancelled, .error noFieldPendingCount) ∧
    (cancel_request demoClients (pyStr "test::2") true 10).2.2 =
      .ok ⟨pyStr "not_found", pyStr "Request not found: test::2",
           false, none⟩ := by
  refine ⟨?_, rfl, rfl⟩
  norm_num +decide [cancel_request, demoClients, demoClient, demoPending,
    demoConfig, demoStatusOnline, HEARTBEAT_STALL_THRESHOLD, pyStr, alistGet,
    alistSet, alistRemove, pyRSplitOnce, lastMatchIdx, lastMatchIdxGo,
    pyIntParse, digitsToNat, containsSub, startsWithB, pydanticSetattrCheck,
    serverStatusFieldNames, noFieldPendingCount, FutureState.done]

/-- C1 counterexample: the claim quantifies over every input, but
`model_validate` runs before the `try` block, so the empty-string
`tool_id` (rejected by `min_length=1`) makes `invoke` raise a
`ValidationError` to its caller instead of returning an `ok=false`
result. -/
theorem C1_counterexample :
    invoke [] (fun _ => true) (fun _ _ _ => .exc [])
        (fun _ _ _ => .exc []) { tool_id := some [] } =
      .exc (pyStr "validation error: tool_id must have at least 1 character") :=
  rfl

/-- C1 as amended: for every input that passes `InvokeInput` validation,
`invoke` never raises, and each case yields exactly the structured output
the source builds: an unknown `tool_id` yields `ok=false` with the single
`"Tool not found"` error; a policy-blocked `tool_id` yields `ok=false` with
the single policy error; an exception from `call_tool` or from
`process_output` yields `ok=false` carrying that exception's message as the
single error; a successful dispatch yields `ok=true` with the processed
result and no errors. -/
theorem C1_amended (tools : List (PyStr × ToolInfo))
    (is_tool_allowed : PyStr → Bool)
    (call_tool : PyStr → List (PyStr × Json) → Int → PyOutcome Json)
    (process_output : Json → Bool → Option Int → PyOutcome ProcessedOutput)
    (raw : InvokeRawInput) (parsed : InvokeInput)
    (hv : invokeModelValidate raw = .ok parsed) :
    (∃ out, invoke tools is_tool_allowed call_tool process_output raw =
        .ok out ∧
      (out.ok = true ∧ out.errors = none ∨
       out.ok = false ∧ ∃ e, out.errors = some [e])) ∧
    (alistGet tools parsed.tool_id = none →
      invoke tools is_tool_allowed call_tool process_output raw =
        .ok { tool_id := parsed.tool_id, ok := false, result := none,
              truncated := false, summary := none, raw_size_estimate := 0,
              errors := some [pyStr "Tool not found: " ++ parsed.tool_id] }) ∧
    (∀ ti, alistGet tools parsed.tool_id = some ti →
      is_tool_allowed parsed.tool_id = false →
      invoke tools is_tool_allowed call_tool process_output raw =
        .ok { tool_id := parsed.tool_id, ok := false, result := none,
              truncated := false, summary := none, raw_size_estimate := 0,
              errors := some
                [pyStr "Tool is not allowed by policy: " ++
                  parsed.tool_id] }) ∧
    (∀ ti e, alistGet tools parsed.tool_id = some ti →
      is_tool_allowed parsed.tool_id = true →
      call_tool parsed.tool_id parsed.arguments (invokeTimeout parsed) =
        .exc e →
      invoke tools is_tool_allowed call_tool process_output raw =
        .ok { tool_id := parsed.tool_id, ok := false, result := none,
              truncated := false, summary := none, raw_size_estimate := 0,
              errors := some [e] }) ∧
    (∀ ti r e, alistGet tools parsed.tool_id = some ti →
      is_tool_allowed parsed.tool_id = true →
      call_tool parsed.tool_id parsed.arguments (invokeTimeout parsed) =
        .ok r →
      process_output r (invokeRedact parsed) (invokeMaxBytes parsed) =
        .exc e →
      invoke tools is_tool_allowed call_tool process_output raw =
        .ok { tool_id := parsed.tool_id, ok := false, result := none,
              truncated := false, summary := none, raw_size_estimate := 0,
              errors := some [e] }) ∧
    (∀ ti r p, alistGet tools parsed.tool_id = some ti →
      is_tool_allowed parsed.tool_id = true →
      call_tool parsed.tool_id parsed.arguments (invokeTimeout parsed) =
        .ok r →
      process_output r (invokeRedact parsed) (invokeMaxBytes parsed) =
        .ok p →
      invoke tools is_tool_allowed call_tool process_output raw =
        .ok { tool_id := parsed.tool_id, ok := true,
              result := some p.result, truncated := p.truncated,
              summary := p.summary, raw_size_estimate := p.raw_size,
              errors := none }) := by
  refine ⟨?_, ?_, ?_, ?_, ?_, ?_⟩
  · simp only [invoke, hv]
    split
    · exact ⟨_, rfl, .inr ⟨rfl, _, rfl⟩⟩
    · split
      · exact ⟨_, rfl, .inr ⟨rfl, _, rfl⟩⟩
      · split
        · exact ⟨_, rfl, .inr ⟨rfl, _, rfl⟩⟩
        · split
          · exact ⟨_, rfl, .inr ⟨rfl, _, rfl⟩⟩
          · exact ⟨_, rfl, .inl ⟨rfl, rfl⟩⟩
  · intro hg
    simp only [invoke, hv, hg]
  · intro ti hg ha
    simp only [invoke, hv, hg, ha, Bool.not_false]
    try rfl
  · intro ti e hg ha hc
    have hc' : call_tool parsed.tool_id parsed.arguments
        (match parsed.options with
         | some o => o.timeout_ms
         | none => 30000) = .exc e := hc
    simp only [invoke, hv, hg, ha, Bool.not_true, hc']
    try rfl
  · intro ti r e hg ha hc hp
    have hc' : call_tool parsed.tool_id parsed.arguments
        (match parsed.options with
         | some o => o.timeout_ms
         | none => 30000) = .ok r := hc
    have hp' : process_output r
        (match parsed.options with
         | some o => o.redact_secrets
         | none => false)
        ((parsed.options.bind fun o => o.max_output_chars).map
          fun c => c * 4) = .exc e := hp
    simp only [invoke, hv, hg, ha, Bool.not_true, hc', hp']
    try rfl
  · intro ti r p hg ha hc hp
    have hc' : call_tool parsed.tool_id parsed.arguments
        (match parsed.options with
         | some o => o.timeout_ms
         | none => 30000) = .ok r := hc
    have hp' : process_output r
        (match parsed.options with
         | some o => o.redact_secrets
         | none => false)
        ((parsed.options.bind fun o => o.max_output_chars).map
          fun c => c * 4) = .ok p := hp
    simp only [invoke, hv, hg, ha, Bool.not_true, hc', hp']
    try rfl

/-- Witness for C1 as amended: a concrete validated input, an allowed and
present tool, and a dispatch that raises a timeout; the theorem pins every
case of that environment, in particular that the raised message comes back
as the single error. -/
theorem C1_amended_witness :
    (∃ out, invoke [(pyStr "test::tool", ghTool)] (fun _ => true)
          (fun _ _ _ => .exc (pyStr "Request tools/call timed out"))
          (fun _ _ _ => .exc [])
          { tool_id := some (pyStr "test::tool") } =
        .ok out ∧
      (out.ok = true ∧ out.errors = none ∨
       out.ok = false ∧ ∃ e, out.errors = some [e])) ∧
    (alistGet [(pyStr "test::tool", ghTool)] (pyStr "test::tool") = none →
      invoke [(pyStr "test::tool", ghTool)] (fun _ => true)
          (fun _ _ _ => .exc (pyStr "Request tools/call timed out"))
          (fun _ _ _ => .exc [])
          { tool_id := some (pyStr "test::tool") } =
        .ok { tool_id := pyStr "test::tool", ok := false, result := none,
              truncated := false, summary := none, raw_size_estimate := 0,
              errors := some
                [pyStr "Tool not found: " ++ pyStr "test::tool"] }) ∧
    (∀ ti, alistGet [(pyStr "test::tool", ghTool)] (pyStr "test::tool") =
        some ti →
      (fun (_ : PyStr) => true) (pyStr "test::tool") = false →
      invoke [(pyStr "test::tool", ghTool)] (fun _ => true)
          (fun _ _ _ => .exc (pyStr "Request tools/call timed out"))
          (fun _ _ _ => .exc [])
          { tool_id := some (pyStr "test::tool") } =
        .ok { tool_id := pyStr "test::tool", ok := false, result := none,
              truncated := false, summary := none, raw_size_estimate := 0,
              errors := some
                [pyStr "Tool is not allowed by policy: " ++
                  pyStr "test::tool"] }) ∧
    (∀ ti e, alistGet [(pyStr "test::tool", ghTool)] (pyStr "test::tool") =
        some ti →
      (fun (_ : PyStr) => true) (pyStr "test::tool") = true →
      (fun (_ : PyStr) (_ : List (PyStr × Json)) (_ : Int) =>
          (PyOutcome.exc (pyStr "Request tools/call timed out") :
            PyOutcome Json))
        (pyStr "test::tool") []
        (invokeTimeout { tool_id := pyStr "test::tool" }) = .exc e →
      invoke [(pyStr "test::tool", ghTool)] (fun _ => true)
          (fun _ _ _ => .exc (pyStr "Request tools/call timed out"))
          (fun _ _ _ => .exc [])
          { tool_id := some (pyStr "test::tool") } =
        .ok { tool_id := pyStr "test::tool", ok := false, result := none,
              truncated := false, summary := none, raw_size_estimate := 0,
              errors := some [e] }) ∧
    (∀ ti r e, alistGet [(pyStr "test::tool", ghTool)]
        (pyStr "test::tool") = some ti →
      (fun (_ : PyStr) => true) (pyStr "test::tool") = true →
      (fun (_ : PyStr) (_ : List (PyStr × Json)) (_ : Int) =>
          (PyOutcome.exc (pyStr "Request tools/call timed out") :
            PyOutcome Json))
        (pyStr "test::tool") []
        (invokeTimeout { tool_id := pyStr "test::tool" }) = .ok r →
      (fun (_ : Json) (_ : Bool) (_ : Option Int) =>
          (PyOutcome.exc [] : PyOutcome ProcessedOutput)) r
        (invokeRedact { tool_id := pyStr "test::tool" })
        (invokeMaxBytes { tool_id := pyStr "test::tool" }) = .exc e →
      invoke [(pyStr "test::tool", ghTool)] (fun _ => true)
          (fun _ _ _ => .exc (pyStr "Request tools/call timed out"))
          (fun _ _ _ => .exc [])
          { tool_id := some (pyStr "test::tool") } =
        .ok { tool_id := pyStr "test::tool", ok := false, result := none,
              truncated := false, summary := none, raw_size_estimate := 0,
              errors := some [e] }) ∧
    (∀ ti r p, alistGet [(pyStr "test::tool", ghTool)]
        (pyStr "test::tool") = some ti →
      (fun (_ : PyStr) => true) (pyStr "test::tool") = true →
      (fun (_ : PyStr) (_ : List (PyStr × Json)) (_ : Int) =>
          (PyOutcome.exc (pyStr "Request tools/call timed out") :
            PyOutcome Json))
        (pyStr "test::tool") []
        (invokeTimeout { tool_id := pyStr "test::tool" }) = .ok r →
      (fun (_ : Json) (_ : Bool) (_ : Option Int) =>
          (PyOutcome.exc [] : PyOutcome ProcessedOutput)) r
        (invokeRedact { tool_id := pyStr "test::tool" })
        (invokeMaxBytes { tool_id := pyStr "test::tool" }) = .ok p →
      invoke [(pyStr "test::tool", ghTool)] (fun _ => true)
          (fun _ _ _ => .exc (pyStr "Request tools/call timed out"))
          (fun _ _ _ => .exc [])
          { tool_id := some (pyStr "test::tool") } =
        .ok { tool_id := pyStr "test::tool", ok := true,
              result := some p.result, truncated := p.truncated,
              summary := p.summary, raw_size_estimate := p.raw_size,
              errors := none }) :=
  C1_amended [(pyStr "test::tool", ghTool)] (fun _ => true)
    (fun _ _ _ => .exc (pyStr "Request tools/call timed out"))
    (fun _ _ _ => .exc []) { tool_id := some (pyStr "test::tool") }
    { tool_id := pyStr "test::tool" } rfl

/-- C3 counterexample: when the spawn itself fails, the exception is raised
before the `try` block of `_connect_server`, so the child's status stays
CONNECTING — not ERROR as claimed.  The error is still collected and no
tools are indexed. -/
theorem C3_counterexample :
    alistGet
        (connect_all demoManagerState
          [(demoConfig, .spawnFail (pyStr "spawn failed"))] 0 100
          (pyStr "rev-1")).1.servers (pyStr "test") =
      some { name := pyStr "test", status := ServerStatusEnum.connecting,
             tool_count := 0 } ∧
    (connect_all demoManagerState
        [(demoConfig, .spawnFail (pyStr "spawn failed"))] 0 100
        (pyStr "rev-1")).2 =
      [pyStr "Failed to connect to test: spawn failed"] ∧
    (connect_all demoManagerState
        [(demoConfig, .spawnFail (pyStr "spawn failed"))] 0 100
        (pyStr "rev-1")).1.tools = [] :=
  ⟨rfl, rfl, rfl⟩

/-- C3 as amended: for every connect failure the error is collected into
the connect error list while the remaining servers proceed, and no tool of
the failing child enters the catalog; `initialize` and `tools/list`
failures leave the child's status ERROR with the message, while a spawn
failure leaves it CONNECTING. -/
theorem C3_amended (st : ManagerState) (cfg : ResolvedServerConfig)
    (msg : PyStr) (now : Rat) (maxTools : Nat)
    (rest : List (ResolvedServerConfig × ConnectOutcome))
    (hcmd : cfg.config.command.isEmpty = false) :
    ∀ oc ∈ [ConnectOutcome.spawnFail msg, ConnectOutcome.initFail msg,
            ConnectOutcome.toolsListFail msg],
      (connectServer st cfg oc now maxTools).1.tools = st.tools ∧
      (connectServer st cfg oc now maxTools).2 = .exc msg ∧
      alistGet (connectServer st cfg oc now maxTools).1.servers cfg.name =
        some { name := cfg.name
               status := (if oc matches .spawnFail _ then
                   ServerStatusEnum.connecting
                 else ServerStatusEnum.error)
               tool_count := 0
               last_error := (if oc matches .spawnFail _ then none
                 else some msg) } ∧
      (connectAllGo now maxTools st ((cfg, oc) :: rest)).2 =
        (pyStr "Failed to connect to " ++ cfg.name ++ pyStr ": " ++ msg) ::
          (connectAllGo now maxTools
            (connectServer st cfg oc now maxTools).1 rest).2 := by
  intro oc hoc
  have key : ∀ {κ α : Type} [inst : DecidableEq κ] (d : List (κ × α)) (k : κ)
      (v : α), alistGet (alistSet d k v) k = some v := by
    intro κ α inst d k v
    induction d with
    | nil => simp [alistSet, alistGet]
    | cons kv rest ih =>
        by_cases h : k = kv.1 <;> simp [alistSet, alistGet, h, ih]
  fin_cases hoc <;>
    exact ⟨by simp [connectServer, hcmd], by simp [connectServer, hcmd],
      by simp [connectServer, hcmd, key],
      by simp [connectAllGo, connectServer, hcmd]⟩

/-- Witness for C3 as amended at a concrete failing connect. -/
theorem C3_amended_witness :
    (connectServer demoManagerState demoConfig
        (ConnectOutcome.initFail (pyStr "boom")) 0 100).1.tools =
        demoManagerState.tools ∧
      (connectServer demoManagerState demoConfig
        (ConnectOutcome.initFail (pyStr "boom")) 0 100).2 =
        .exc (pyStr "boom") ∧
      alistGet (connectServer demoManagerState demoConfig
          (ConnectOutcome.initFail (pyStr "boom")) 0 100).1.servers
          demoConfig.name =
        some { name := demoConfig.name
               status := (if (ConnectOutcome.initFail
                   (pyStr "boom")) matches .spawnFail _ then
                   ServerStatusEnum.connecting
                 else ServerStatusEnum.error)
               tool_count := 0
               last_error := (if (ConnectOutcome.initFail
                   (pyStr "boom")) matches .spawnFail _ then none
                 else some (pyStr "boom")) } ∧
      (connectAllGo 0 100 demoManagerState
          [(demoConfig, ConnectOutcome.initFail (pyStr "boom"))]).2 =
        (pyStr "Failed to connect to " ++ demoConfig.name ++ pyStr ": " ++
            pyStr "boom") ::
          (connectAllGo 0 100 (connectServer demoManagerState demoConfig
            (ConnectOutcome.initFail (pyStr "boom")) 0 100).1 []).2 :=
  C3_amended demoManagerState demoConfig (pyStr "boom") 0 100 [] rfl
    (ConnectOutcome.initFail (pyStr "boom")) (by simp)

/-- Looking a key up after removing it yields nothing. -/
theorem alistGet_remove_self {κ α : Type} [DecidableEq κ]
    (d : List (κ × α)) (k : κ) : alistGet (alistRemove d k) k = none := by
  induction d with
  | nil => rfl
  | cons kv rest ih =>
      by_cases h : k = kv.1
      · simpa [alistRemove, h] using ih
      · simp [alistRemove, alistGet, h, ih]

/-- C10 counterexample: the three validation checks of `adopt_process` run
before the name is registered, so when the adopted process has already
exited and a server of the same name is already present, `adopt_process`
raises while the name remains in both maps — not absent as claimed. -/
theorem C10_counterexample :
    (adoptProcess demoAdoptState (pyStr "test") demoConfig
        AdoptOutcome.alreadyExited 0 100 (pyStr "rev-2")).1 =
      demoAdoptState ∧
    (alistGet demoAdoptState.clients (pyStr "test")).isSome = true ∧
    (alistGet demoAdoptState.servers (pyStr "test")).isSome = true ∧
    (adoptProcess demoAdoptState (pyStr "test") demoConfig
        AdoptOutcome.alreadyExited 0 100 (pyStr "rev-2")).2 =
      .exc (pyStr "Process for test has already exited") :=
  ⟨rfl, rfl, rfl, rfl⟩

/-- C10 as amended: when `adopt_process` raises, `revision_id` and
`last_refresh_ts` keep their prior values; a validation failure (process
already exited, missing pipe) leaves the whole state untouched, while a
handshake or tools/list failure removes the name from both the client map
and the server-status map. -/
theorem C10_amended (st : ManagerState) (name : PyStr)
    (config : ResolvedServerConfig) (msg : PyStr) (now : Rat)
    (maxTools : Nat) (rev : PyStr) :
    (∀ oc ∈ [AdoptOutcome.alreadyExited, AdoptOutcome.noStdin,
             AdoptOutcome.noStdout],
      (adoptProcess st name config oc now maxTools rev).1 = st ∧
      ∃ e, (adoptProcess st name config oc now maxTools rev).2 = .exc e) ∧
    (∀ oc ∈ [AdoptOutcome.initFail msg, AdoptOutcome.toolsListFail msg],
      alistGet (adoptProcess st name config oc now maxTools rev).1.clients
          name = none ∧
      alistGet (adoptProcess st name config oc now maxTools rev).1.servers
          name = none ∧
      (adoptProcess st name config oc now maxTools rev).1.revision_id =
        st.revision_id ∧
      (adoptProcess st name config oc now maxTools rev).1.last_refresh_ts =
        st.last_refresh_ts ∧
      (adoptProcess st name config oc now maxTools rev).2 = .exc msg) := by
  constructor
  · intro oc hoc
    fin_cases hoc <;> exact ⟨rfl, _, rfl⟩
  · intro oc hoc
    fin_cases hoc <;>
      exact ⟨alistGet_remove_self _ _, alistGet_remove_self _ _, rfl, rfl, rfl⟩

/-- Witness for C10 as amended at a concrete failing adoption. -/
theorem C10_amended_witness :
    alistGet (adoptProcess demoAdoptState (pyStr "test") demoConfig
        (AdoptOutcome.initFail (pyStr "boom")) 0 100
        (pyStr "rev-2")).1.clients (pyStr "test") = none ∧
    alistGet (adoptProcess demoAdoptState (pyStr "test") demoConfig
        (AdoptOutcome.initFail (pyStr "boom")) 0 100
        (pyStr "rev-2")).1.servers (pyStr "test") = none ∧
    (adoptProcess demoAdoptState (pyStr "test") demoConfig
        (AdoptOutcome.initFail (pyStr "boom")) 0 100
        (pyStr "rev-2")).1.revision_id = demoAdoptState.revision_id ∧
    (adoptProcess demoAdoptState (pyStr "test") demoConfig
        (AdoptOutcome.initFail (pyStr "boom")) 0 100
        (pyStr "rev-2")).1.last_refresh_ts = demoAdoptState.last_refresh_ts ∧
    (adoptProcess demoAdoptState (pyStr "test") demoConfig
        (AdoptOutcome.initFail (pyStr "boom")) 0 100
        (pyStr "rev-2")).2 = .exc (pyStr "boom") :=
  (C10_amended demoAdoptState (pyStr "test") demoConfig (pyStr "boom") 0 100
    (pyStr "rev-2")).2 (AdoptOutcome.initFail (pyStr "boom")) (by simp)

end McpGateway
